import Mathlib

/-!
# EcoPulse analytics core — a shallow embedding in Lean 4

This file embeds the analytics pipeline of the EcoPulse repository
(`src/services/geminiService.ts`, the live engine, plus the parallel
`src/services/mlRecommendationEngine.ts` engine) and proves the frozen
claims about it.

Modelling conventions:
* JavaScript numbers are modelled as exact rationals (`ℚ`).  All arithmetic
  in the pipeline is `+ - * /`, `Math.abs`, `Math.min/max`, `Math.floor`,
  `Math.ceil`, `Math.round` and `Math.sqrt`; the first seven are exact on
  rationals.  `Math.sqrt` appears twice:
  - in `assignCluster` the distances are only *compared*, and `Math.sqrt`
    is strictly monotone on non-negative reals, so we compare the squared
    distances — the argmin and its tie behaviour are identical;
  - in the confidence scorer `stdDev = Math.sqrt(variance)` feeds a value
    into the score, so the scorer is parameterised over an arbitrary
    square-root routine `sq : ℚ → ℚ` and the theorems hold for *every*
    such routine (in particular for the rounded-float `Math.sqrt`).
* A JS `Date` constructed from a trip's date string is modelled by the
  three observations the code makes of it: `getTime()` (epoch
  milliseconds), `getDay()` (weekday, 0 = Sunday) and the calendar-day
  key `date.split("T")[0]`.
* A JS `Map` (insertion-ordered) is modelled as an association list where
  an update keeps the key's position and a fresh key is appended.
* A JS plain-object record with the string keys used here (weekday names,
  vehicle labels) iterates in insertion order; same model.
* `Array.prototype.sort` is stable (ES2019), so the `(a, b) => b[1]-a[1]`
  sorts are modelled by a stable insertion sort with the matching total
  relation; a stable sort's output is uniquely determined by the
  comparator, so the model agrees with the engine on every input.
-/

/-- Trend direction returned by `detectTrend`. -/
inductive TrendDir where
  | increasing
  | stable
  | decreasing
deriving DecidableEq, Repr

/-- The observations the analytics code makes of `new Date(trip.date)`:
`time` is `getTime()` in epoch milliseconds, `day` is `getDay()`
(0 = Sunday .. 6 = Saturday), and `key` is the calendar-day portion of the
ISO string, `trip.date.split("T")[0]`.  In JS all three are derived from
the same date string; here they are carried as given data, which only
makes the universally quantified theorems stronger. -/
structure JSDate where
  time : ℤ
  day : Fin 7
  key : String
deriving DecidableEq, Repr

/-- `Trip` from `src/services/types.ts` (the fields the analytics reads). -/
structure Trip where
  date : JSDate
  co2 : ℚ
  distance : ℚ
  vehicle : String
  customVehicleName : Option String
deriving DecidableEq, Repr

/-- `UtilityBill` from `src/services/types.ts` (the fields the analytics
reads: `units` is the kWh consumption; `date` is the bill's timestamp in
epoch milliseconds, used by the record store to order the collection). -/
structure UtilityBill where
  units : ℚ
  date : ℤ
deriving DecidableEq, Repr

/- String literals of the source, named so that they can be reused
verbatim across the file. -/

def sunName : String := "Sun"
def monName : String := "Mon"
def tueName : String := "Tue"
def wedName : String := "Wed"
def thuName : String := "Thu"
def friName : String := "Fri"
def satName : String := "Sat"

/-- `const dayNames = ["Sun", "Mon", "Tue", "Wed", "Thu", "Fri", "Sat"]`
(`minePatterns`, geminiService.ts). -/
def dayNames : List String :=
  [ sunName, monName, tueName, wedName, thuName, friName, satName ]

def emptyStr : String := ""

/-- `dayNames[date.getDay()]`. -/
def dayNameOf (d : Fin 7) : String := dayNames.getD d.val emptyStr

def customName : String := "Custom"

def energyDominatesTag : String := "energy_dominates"
def travelDominatesTag : String := "travel_dominates"
def emissionsIncreasingTag : String := "emissions_increasing"
def weekendHeavyTravelTag : String := "weekend_heavy_travel"
def frequentLongTripsTag : String := "frequent_long_trips"

def seasonalMethodName : String := "Seasonal Decomposition"
def ewmaMethodName : String := "EWMA + Trend Analysis"

def lowRisk : String := "Low"
def moderateRisk : String := "Moderate"
def highRisk : String := "High"

def ecoEliteName : String := "Eco Elite"
def greenCommuterName : String := "Green Commuter"
def sustainableStandardName : String := "Sustainable Standard"
def heavyTravelerName : String := "Heavy Traveler"
def energyIntensiveName : String := "Energy Intensive"
def highImpactName : String := "High Impact"

/-!  ## The pure helpers of `src/services/geminiService.ts`  -/

/-- `calculateEWMA(data, alpha)`: empty input gives 0; otherwise the state
is seeded with `data[0]` and folded with
`ewma = alpha * data[i] + (1 - alpha) * ewma`. -/
def calculateEWMA (data : List ℚ) (alpha : ℚ) : ℚ :=
  match data with
  | [] => 0
  | x :: rest => rest.foldl (fun ewma v => alpha * v + (1 - alpha) * ewma) x

/-- The body of the `detectTrend` summing loop: one step updates
`(sumX, sumY, sumXY, sumX2)` with the indexed point `p = (i, data[i])`. -/
def trendStep (acc : ℚ × ℚ × ℚ × ℚ) (p : ℕ × ℚ) : ℚ × ℚ × ℚ × ℚ :=
  (acc.1 + p.1, acc.2.1 + p.2, acc.2.2.1 + p.1 * p.2,
    acc.2.2.2 + (p.1 : ℚ) * p.1)

/-- The sum accumulator of the `detectTrend` loop:
`(sumX, sumY, sumXY, sumX2)` after folding the indexed series. -/
def trendSums (data : List ℚ) : ℚ × ℚ × ℚ × ℚ :=
  data.enum.foldl trendStep (0, 0, 0, 0)

/-- `detectTrend(data)`: fewer than 3 points gives slope 0 / stable, else
the least-squares slope over x = 0..n-1 with the fixed ±0.1
classification thresholds. -/
def detectTrend (data : List ℚ) : ℚ × TrendDir :=
  let n : ℚ := data.length
  if data.length < 3 then (0, TrendDir.stable)
  else
    let s := trendSums data
    let slope := (n * s.2.2.1 - s.1 * s.2.1) / (n * s.2.2.2 - s.1 * s.1)
    let direction :=
      if slope > 0.1 then TrendDir.increasing
      else if slope < -0.1 then TrendDir.decreasing
      else TrendDir.stable
    (slope, direction)

/-- Result record of `analyzeSeasonalPattern`. -/
structure SeasonalResult where
  weekdayAvg : ℚ
  weekendAvg : ℚ
  hasPattern : Bool
deriving DecidableEq, Repr

/-- `dayOfWeek === 0 || dayOfWeek === 6` — the weekend test. -/
def isWeekendDay (d : Fin 7) : Bool := d = 0 || d = 6

/-- `analyzeSeasonalPattern(trips)`: splits the individual trip emissions
into weekday/weekend populations by `getDay()`, takes the arithmetic mean
of each (0 for an empty population), and reports
`hasPattern = |weekdayAvg - weekendAvg| / max(weekdayAvg, 1) > 0.2`. -/
def analyzeSeasonalPattern (trips : List Trip) : SeasonalResult :=
  let weekdayEmissions := (trips.filter (fun t => !isWeekendDay t.date.day)).map (·.co2)
  let weekendEmissions := (trips.filter (fun t => isWeekendDay t.date.day)).map (·.co2)
  let weekdayAvg :=
    if weekdayEmissions.length > 0 then
      weekdayEmissions.sum / weekdayEmissions.length
    else 0
  let weekendAvg :=
    if weekendEmissions.length > 0 then
      weekendEmissions.sum / weekendEmissions.length
    else 0
  { weekdayAvg := weekdayAvg
    weekendAvg := weekendAvg
    hasPattern := decide (|weekdayAvg - weekendAvg| / max weekdayAvg 1 > 0.2) }

/-- One entry of the fixed cluster catalog. -/
structure Cluster where
  name : String
  avgTravel : ℚ
  avgEnergy : ℚ
deriving DecidableEq, Repr

/-- `const clusters = [...]` — the fixed archetype catalog of
geminiService.ts (identical to the one in mlRecommendationEngine.ts). -/
def clusters : List Cluster :=
  [ { name := ecoEliteName, avgTravel := 1.0, avgEnergy := 1.5 },
    { name := greenCommuterName, avgTravel := 2.0, avgEnergy := 2.5 },
    { name := sustainableStandardName, avgTravel := 3.0, avgEnergy := 2.5 },
    { name := heavyTravelerName, avgTravel := 5.0, avgEnergy := 2.5 },
    { name := energyIntensiveName, avgTravel := 2.0, avgEnergy := 5.0 },
    { name := highImpactName, avgTravel := 5.0, avgEnergy := 4.0 } ]

/-- The squared Euclidean distance of `assignCluster`.  The source
compares `Math.sqrt` of this quantity; since `Math.sqrt` is strictly
monotone on non-negative reals, comparing the squares yields the same
minimiser and the same first-wins tie behaviour. -/
def distSq (avgTravel avgEnergy : ℚ) (c : Cluster) : ℚ :=
  (avgTravel - c.avgTravel) ^ 2 + (avgEnergy - c.avgEnergy) ^ 2

/-- `assignCluster(avgTravel, avgEnergy)`: scans the catalog keeping the
first strict minimiser (`minDistance` starts at `Infinity`, modelled by
`none`; the catalog is non-empty so the initial
`closestCluster = clusters[0].name` is overwritten on the first step). -/
def assignCluster (avgTravel avgEnergy : ℚ) : String :=
  let best := clusters.foldl
    (fun (acc : Option ℚ × String) c =>
      let d := distSq avgTravel avgEnergy c
      match acc.1 with
      | none => (some d, c.name)
      | some m => if d < m then (some d, c.name) else acc)
    (none, ecoEliteName)
  best.2

/-- Insertion-ordered JS-`Map` accumulation:
`map.set(k, (map.get(k) || 0) + v)` keeps an existing key's position and
appends a fresh key. -/
def upsertAdd (m : List (String × ℚ)) (k : String) (v : ℚ) : List (String × ℚ) :=
  match m with
  | [] => [(k, v)]
  | (k', v') :: rest =>
    if k' = k then (k', v' + v) :: rest else (k', v') :: upsertAdd rest k v

/-- Insertion-ordered JS plain-object counting:
`rec[k] = (rec[k] || 0) + 1`. -/
def upsertCount (m : List (String × ℕ)) (k : String) : List (String × ℕ) :=
  match m with
  | [] => [(k, 1)]
  | (k', c) :: rest =>
    if k' = k then (k', c + 1) :: rest else (k', c) :: upsertCount rest k

/-- One step of a stable insertion sort, descending by count: an element
is inserted after every earlier element whose count is at least its own,
so original order is kept among equal counts. -/
def insertByCountDesc (x : String × ℕ) : List (String × ℕ) → List (String × ℕ)
  | [] => [x]
  | y :: ys => if x.2 ≤ y.2 then y :: insertByCountDesc x ys else x :: y :: ys

/-- The `(a, b) => b[1] - a[1]` sort of the source: descending by count,
stable (ES2019 `Array.prototype.sort` is stable).  A stable sort's output
is uniquely determined by the comparator, so this stable insertion sort
agrees with the engine's sort on every input. -/
def sortByCountDesc (m : List (String × ℕ)) : List (String × ℕ) :=
  m.foldl (fun acc x => insertByCountDesc x acc) []

/-- `trip.vehicle === "Custom" ? trip.customVehicleName || "Custom" :
trip.vehicle` — a falsy (`undefined` or empty) custom name falls back to
the label `"Custom"`. -/
def vehicleLabel (t : Trip) : String :=
  if t.vehicle = customName then
    match t.customVehicleName with
    | some s => if s = emptyStr then customName else s
    | none => customName
  else t.vehicle

/-- Result record of geminiService's `minePatterns`. -/
structure PatternsResult where
  peakDays : List String
  vehicleFrequency : List (String × ℕ)
deriving DecidableEq, Repr

/-- `minePatterns(trips)` (geminiService.ts): counts trips per weekday
name and per vehicle label in insertion order, sorts the day counts
descending (stably) and keeps the top two day names. -/
def minePatterns (trips : List Trip) : PatternsResult :=
  let dayCount := trips.foldl (fun m t => upsertCount m (dayNameOf t.date.day)) []
  let vehicleCount := trips.foldl (fun m t => upsertCount m (vehicleLabel t)) []
  { peakDays := ((sortByCountDesc dayCount).take 2).map (·.1)
    vehicleFrequency := vehicleCount }

/-- `detectAnomalies(avgTravel, avgEnergy, trend)` of geminiService.ts —
the live engine's detector: only the energy/travel-ratio rules and the
increasing-trend rule. -/
def detectAnomalies (avgTravel avgEnergy : ℚ) (trend : TrendDir) : List String :=
  let ratioPart :=
    let r := avgEnergy / max avgTravel 0.1
    if r > 2 then [ energyDominatesTag ]
    else if r < 0.5 then [ travelDominatesTag ]
    else []
  let trendPart := if trend = TrendDir.increasing then [ emissionsIncreasingTag ] else []
  ratioPart ++ trendPart

example : calculateEWMA [ 1, 2 ] 0.3 = 1.3 := by norm_num [calculateEWMA]
example : detectTrend [ 0, 0, 3 ] = (1.5, TrendDir.increasing) := by
  norm_num [detectTrend, trendSums, trendStep, List.enum, List.enumFrom]
example : assignCluster 0 0 = ecoEliteName := by
  norm_num [assignCluster, clusters, distSq]
example : detectAnomalies 10 0 TrendDir.stable = [ travelDominatesTag ] := by
  norm_num +decide [detectAnomalies]
example :
    minePatterns [ { date := { time := 0, day := 6, key := emptyStr },
                     co2 := 1, distance := 1, vehicle := customName,
                     customVehicleName := none } ] =
      { peakDays := [ satName ], vehicleFrequency := [ (customName, 1) ] } := by
  simp +decide [minePatterns, upsertCount, sortByCountDesc, insertByCountDesc,
    dayNameOf, dayNames, vehicleLabel]

/-!  ## The `getAIAnalytics` pass of `src/services/geminiService.ts`

Each `const` of the function body becomes one definition, parameterised by
the inputs `trips`, `bills` and the reference instant `now` (epoch
milliseconds, `new Date()` at entry).  -/

/-- `Math.ceil(Math.abs(now.getTime() - tripDate.getTime()) / (1000 * 60 * 60 * 24))`
— a trip's age in whole days, counted symmetrically for past and future
dates. -/
def diffDays (now time : ℤ) : ℤ :=
  Int.ceil ((|now - time| : ℚ) / (1000 * 60 * 60 * 24))

/-- The 30-day trailing-window filter `last30Days`. -/
def last30DaysOf (trips : List Trip) (now : ℤ) : List Trip :=
  trips.filter (fun t => decide (diffDays now t.date.time ≤ 30))

/-- The `dailyEmissions` map: per-calendar-day summed trip emission, in
first-seen-key order. -/
def dailyEmissionsOf (trips : List Trip) (now : ℤ) : List (String × ℚ) :=
  (last30DaysOf trips now).foldl (fun m t => upsertAdd m t.date.key t.co2) []

/-- `timeSeriesData = Array.from(dailyEmissions.values())`. -/
def timeSeriesOf (trips : List Trip) (now : ℤ) : List ℚ :=
  (dailyEmissionsOf trips now).map (·.2)

/-- `ewmaTravel = calculateEWMA(timeSeriesData, 0.3)`. -/
def ewmaTravelOf (trips : List Trip) (now : ℤ) : ℚ :=
  calculateEWMA (timeSeriesOf trips now) 0.3

/-- `trend = detectTrend(timeSeriesData)`. -/
def trendOf (trips : List Trip) (now : ℤ) : ℚ × TrendDir :=
  detectTrend (timeSeriesOf trips now)

/-- `seasonal = analyzeSeasonalPattern(last30Days)`. -/
def seasonalOf (trips : List Trip) (now : ℤ) : SeasonalResult :=
  analyzeSeasonalPattern (last30DaysOf trips now)

/-- `latestBill = bills.length > 0 ? bills[0].units : 0`. -/
def latestBillUnitsOf (bills : List UtilityBill) : ℚ :=
  match bills with
  | [] => 0
  | b :: _ => b.units

/-- `dailyEnergy = (latestBill * 0.45) / 30` — 0.45 kg CO2e per kWh is
the engine's fixed grid-intensity constant. -/
def dailyEnergyOf (bills : List UtilityBill) : ℚ :=
  latestBillUnitsOf bills * 0.45 / 30

/-- The travel-forecast method test
`seasonal.hasPattern && timeSeriesData.length > 7`. -/
def seasonalActiveOf (trips : List Trip) (now : ℤ) : Bool :=
  (seasonalOf trips now).hasPattern && decide ((timeSeriesOf trips now).length > 7)

/-- `travelForecast`: seasonal decomposition when the pattern is active,
otherwise the smoothed-plus-trend projection. -/
def travelForecastOf (trips : List Trip) (now : ℤ) : ℚ :=
  if seasonalActiveOf trips now then
    (seasonalOf trips now).weekdayAvg * 5 + (seasonalOf trips now).weekendAvg * 2
  else
    (ewmaTravelOf trips now + (trendOf trips now).1 * 7) * 7

/-- The `method` label accompanying the travel forecast. -/
def methodOf (trips : List Trip) (now : ℤ) : String :=
  if seasonalActiveOf trips now then seasonalMethodName else ewmaMethodName

/-- `energyForecast = dailyEnergy * 7`. -/
def energyForecastOf (bills : List UtilityBill) : ℚ :=
  dailyEnergyOf bills * 7

/-- `totalForecast = travelForecast + energyForecast`. -/
def totalForecastOf (trips : List Trip) (bills : List UtilityBill) (now : ℤ) : ℚ :=
  travelForecastOf trips now + energyForecastOf bills

/-- `optimizedWeekly = totalForecast * 0.8`. -/
def optimizedWeeklyOf (trips : List Trip) (bills : List UtilityBill) (now : ℤ) : ℚ :=
  totalForecastOf trips bills now * 0.8

/-- `avgDailyTravel = travelForecast / 7`. -/
def avgDailyTravelOf (trips : List Trip) (now : ℤ) : ℚ :=
  travelForecastOf trips now / 7

/-- `avgDailyEnergy = dailyEnergy`. -/
def avgDailyEnergyOf (bills : List UtilityBill) : ℚ :=
  dailyEnergyOf bills

/-- `totalDaily = avgDailyTravel + avgDailyEnergy`. -/
def totalDailyOf (trips : List Trip) (bills : List UtilityBill) (now : ℤ) : ℚ :=
  avgDailyTravelOf trips now + avgDailyEnergyOf bills

/-- `cluster = assignCluster(avgDailyTravel, avgDailyEnergy)`. -/
def clusterOf (trips : List Trip) (bills : List UtilityBill) (now : ℤ) : String :=
  assignCluster (avgDailyTravelOf trips now) (avgDailyEnergyOf bills)

/-- `patterns = minePatterns(trips)` — over all trips, not the window. -/
def patternsOf (trips : List Trip) : PatternsResult :=
  minePatterns trips

/-- `anomalies = detectAnomalies(avgDailyTravel, avgDailyEnergy, trend.direction)`. -/
def anomaliesOf (trips : List Trip) (bills : List UtilityBill) (now : ℤ) : List String :=
  detectAnomalies (avgDailyTravelOf trips now) (avgDailyEnergyOf bills)
    (trendOf trips now).2

/-- The risk-tier banding of the returned `Insight`:
`totalForecast < 15 ? "Low" : totalForecast < 30 ? "Moderate" : "High"`. -/
def riskOf (trips : List Trip) (bills : List UtilityBill) (now : ℤ) : String :=
  if totalForecastOf trips bills now < 15 then lowRisk
  else if totalForecastOf trips bills now < 30 then moderateRisk
  else highRisk

/-- `Object.entries(freq).sort((a, b) => b[1] - a[1])[0]?.[0] || dflt` —
the most frequently used label, with the given default for an empty map
(or a falsy, i.e. empty, leading label). -/
def mostUsedLabel (freq : List (String × ℕ)) (dflt : String) : String :=
  match sortByCountDesc freq with
  | [] => dflt
  | x :: _ => if x.1 = emptyStr then dflt else x.1

/-!  ### Recommendation assembly

The external generator is an asynchronous effect; its *observable
outcome* at the `try/catch` boundary is modelled by `AIOutcome`.  The
`fmt1` parameter abstracts JS's `Number.prototype.toFixed(1)` string
formatting, which the claims never inspect; the quoted template text is
abbreviated (no claim depends on the exact wording, only on the count and
the branching structure). -/

/-- What the `try` block observes of the external recommendation call:
either the call (or `JSON.parse`) threw, or an object was parsed whose
`recommendations` field is absent (`none`) or a string array. -/
inductive AIOutcome where
  | threw
  | parsed (recs : Option (List String))
deriving DecidableEq, Repr

/-- The local fallback template (the `catch` branch): always exactly three
strings, filled from the already-computed values. -/
def fallbackRecommendations (fmt1 : ℚ → String) (cluster : String)
    (totalDaily : ℚ) (peakDays : List String) (tripsCount : ℕ)
    (mostUsedVehicle : String) (anomalies : List String) (trendDir : TrendDir)
    (avgDailyEnergy avgDailyTravel : ℚ) : List String :=
  [ "ML analysis: cluster " ++ cluster ++ " at " ++ fmt1 totalDaily ++
      " kg/day. " ++
      (if totalDaily < 5.5 then "Great work staying below the regional average."
       else "Target: get below the 5.5 kg/day regional average."),
    (if peakDays.length > 0 then
      "Peak travel on " ++ String.intercalate " & " peakDays ++ " using " ++
        mostUsedVehicle ++ ". Focus optimizations on these high-impact days."
     else
      "Log more trips (" ++ toString tripsCount ++
        "/10) to unlock pattern-based insights and personalized recommendations."),
    (if anomalies.contains energyDominatesTag then
      "Energy (" ++ fmt1 avgDailyEnergy ++ " kg) dominates travel (" ++
        fmt1 avgDailyTravel ++
        " kg). A smart thermostat could reduce this by 15-20 percent."
     else if trendDir = TrendDir.increasing then
      "Emissions are trending up. Lock in one eco-friendly change this week to reverse the trend."
     else if trendDir = TrendDir.decreasing then
      "Great progress. Keep the momentum going."
     else "Stable pattern. Set a 10 percent reduction goal.") ]

/-- The no-API-key template (the `else` branch): also exactly three
strings. -/
def noKeyRecommendations (fmt1 : ℚ → String) (cluster : String)
    (totalDaily : ℚ) (tripsCount : ℕ) : List String :=
  [ "You are in the " ++ cluster ++ " cluster at " ++ fmt1 totalDaily ++
      " kg/day. Add a Gemini API key for AI-powered insights.",
    "Trips logged: " ++ toString tripsCount ++
      ". Pattern analysis is strongest at 10+ trips.",
    "Enable a Gemini API key for personalized recommendations based on your data." ]

/-- The `recommendations` local of `getAIAnalytics`: the external result
when the key is present, the call succeeded and the parsed array has
exactly 3 entries (`aiResult.recommendations && length === 3`); the local
fallback on any failure or malformed result; the no-key template when no
key is configured. -/
def recommendationsOf (fmt1 : ℚ → String) (apiKeyPresent : Bool)
    (outcome : AIOutcome) (trips : List Trip) (bills : List UtilityBill)
    (now : ℤ) : List String :=
  let fallback :=
    fallbackRecommendations fmt1 (clusterOf trips bills now)
      (totalDailyOf trips bills now) (patternsOf trips).peakDays trips.length
      (mostUsedLabel (patternsOf trips).vehicleFrequency "vehicle")
      (anomaliesOf trips bills now) (trendOf trips now).2
      (avgDailyEnergyOf bills) (avgDailyTravelOf trips now)
  if apiKeyPresent then
    match outcome with
    | AIOutcome.parsed (some recs) =>
      if recs.length = 3 then recs else fallback
    | AIOutcome.parsed none => fallback
    | AIOutcome.threw => fallback
  else
    noKeyRecommendations fmt1 (clusterOf trips bills now)
      (totalDailyOf trips bills now) trips.length

/-!  ### The multi-factor confidence scorer

`stdDev = Math.sqrt(variance)` is the single irrational step of the
pipeline; the scorer is parameterised by the square-root routine
`sq : ℚ → ℚ` and every theorem below holds for an arbitrary `sq`. -/

/-- `uniqueDays = timeSeriesData.length`. -/
def uniqueDaysOf (trips : List Trip) (now : ℤ) : ℕ :=
  (timeSeriesOf trips now).length

/-- `totalTrips = last30Days.length`. -/
def totalTripsOf (trips : List Trip) (now : ℤ) : ℕ :=
  (last30DaysOf trips now).length

/-- `latestTripTimestamp` — the maximal windowed trip time, seeded 0. -/
def latestTripTimestampOf (trips : List Trip) (now : ℤ) : ℤ :=
  (last30DaysOf trips now).foldl
    (fun latest t => if t.date.time > latest then t.date.time else latest) 0

/-- `daysSinceLastTrip` — floored day distance to the latest trip; the JS
conditional tests the timestamp for truthiness, so the 0 seed (no trips)
yields 30. -/
def daysSinceLastTripOf (trips : List Trip) (now : ℤ) : ℤ :=
  if latestTripTimestampOf trips now = 0 then 30
  else Int.floor (((now - latestTripTimestampOf trips now : ℤ) : ℚ) / (1000 * 60 * 60 * 24))

/-- `coverageScore = Math.min(uniqueDays / 30, 1)`. -/
def coverageScoreOf (trips : List Trip) (now : ℤ) : ℚ :=
  min ((uniqueDaysOf trips now : ℚ) / 30) 1

/-- `volumeScore = Math.min(totalTrips / 20, 1)`. -/
def volumeScoreOf (trips : List Trip) (now : ℤ) : ℚ :=
  min ((totalTripsOf trips now : ℚ) / 20) 1

/-- `recencyScore = Math.max(0, 1 - daysSinceLastTrip / 14)`. -/
def recencyScoreOf (trips : List Trip) (now : ℤ) : ℚ :=
  max 0 (1 - (daysSinceLastTripOf trips now : ℚ) / 14)

/-- `stabilityScore = 1 - Math.min(Math.abs(trend.slope) / 0.5, 1)`. -/
def stabilityScoreOf (trips : List Trip) (now : ℤ) : ℚ :=
  1 - min (|(trendOf trips now).1| / 0.5) 1

/-- The daily-series `mean` (0 when there are no unique days). -/
def meanOf (trips : List Trip) (now : ℤ) : ℚ :=
  if uniqueDaysOf trips now > 0 then
    (timeSeriesOf trips now).sum / (uniqueDaysOf trips now : ℚ)
  else 0

/-- The daily-series `variance` (0 unless there is more than one day). -/
def varianceOf (trips : List Trip) (now : ℤ) : ℚ :=
  if uniqueDaysOf trips now > 1 then
    ((timeSeriesOf trips now).map (fun v => (v - meanOf trips now) ^ 2)).sum /
      (uniqueDaysOf trips now : ℚ)
  else 0

/-- `variabilityScore` — one minus the capped coefficient of variation,
0 when the mean is not positive.  `sq` abstracts `Math.sqrt`. -/
def variabilityScoreOf (sq : ℚ → ℚ) (trips : List Trip) (now : ℤ) : ℚ :=
  if meanOf trips now > 0 then
    1 - min ((sq (varianceOf trips now) / meanOf trips now) / 1.5) 1
  else 0

/-- `seasonalStrength` — the weekday/weekend contrast, gated on more than
6 unique days. -/
def seasonalStrengthOf (trips : List Trip) (now : ℤ) : ℚ :=
  if uniqueDaysOf trips now > 6 then
    |(seasonalOf trips now).weekdayAvg - (seasonalOf trips now).weekendAvg| /
      max (seasonalOf trips now).weekdayAvg 1
  else 0

/-- `seasonalityScore = Math.min(seasonalStrength / 0.5, 1)`. -/
def seasonalityScoreOf (trips : List Trip) (now : ℤ) : ℚ :=
  min (seasonalStrengthOf trips now / 0.5) 1

/-- `billsScore = bills.length > 0 ? 1 : 0`. -/
def billsScoreOf (bills : List UtilityBill) : ℚ :=
  if bills.length > 0 then 1 else 0

/-- The weighted factor sum `confidenceScore`. -/
def confidenceScoreOf (sq : ℚ → ℚ) (trips : List Trip)
    (bills : List UtilityBill) (now : ℤ) : ℚ :=
  coverageScoreOf trips now * 30 +
  volumeScoreOf trips now * 15 +
  stabilityScoreOf trips now * 15 +
  variabilityScoreOf sq trips now * 15 +
  seasonalityScoreOf trips now * 10 +
  recencyScoreOf trips now * 10 +
  billsScoreOf bills * 5

/-- `mlConfidence = Math.round(Math.min(95, Math.max(5, confidenceScore)))`
(JS `Math.round` is floor of x + 1/2, which is Mathlib's `round`). -/
def mlConfidenceOf (sq : ℚ → ℚ) (trips : List Trip)
    (bills : List UtilityBill) (now : ℤ) : ℤ :=
  round (min 95 (max 5 (confidenceScoreOf sq trips bills now)))

/-!  ### Insight assembly -/

/-- `Number(x.toFixed(d))` — rounding to `d` decimal digits.  JS ties are
rounded away from zero while `round` rounds them up; the two agree except
at negative exact half-ties, which no claim evaluates. -/
def jsToFixed (d : ℕ) (q : ℚ) : ℚ :=
  (round (q * 10 ^ d) : ℚ) / 10 ^ d

/-- One entry of the 7-entry daily projection. -/
structure DailyForecastEntry where
  day : String
  value : ℚ
deriving DecidableEq, Repr

/-- The Mon..Sun label row of the daily projection. -/
def weekRowNames : List String :=
  [ monName, tueName, wedName, thuName, friName, satName, sunName ]

/-- The `dailyForecast` field: under an active seasonal pattern the two
weekend indices (5, 6) get `weekendAvg + dailyEnergy` and the weekday
indices `weekdayAvg + dailyEnergy`; otherwise every entry is
`totalForecast / 7`. -/
def dailyForecastOf (trips : List Trip) (bills : List UtilityBill) (now : ℤ) :
    List DailyForecastEntry :=
  weekRowNames.enum.map (fun p =>
    let value :=
      if (seasonalOf trips now).hasPattern then
        if p.1 ≥ 5 then (seasonalOf trips now).weekendAvg + dailyEnergyOf bills
        else (seasonalOf trips now).weekdayAvg + dailyEnergyOf bills
      else totalForecastOf trips bills now / 7
    { day := p.2, value := jsToFixed 1 value })

/-- The assembled `AIInsight` value object (`breakdown` is flattened into
its two numeric fields; `patterns` into its four). -/
structure Insight where
  forecast : ℚ
  optimizedForecast : ℚ
  risk : String
  message : String
  recommendations : List String
  breakdownTravel : ℚ
  breakdownEnergy : ℚ
  dailyForecast : List DailyForecastEntry
  peakTravelDays : List String
  averageDailyDistance : ℚ
  mostUsedVehicle : String
  carbonTrend : TrendDir
  mlConfidence : ℤ
deriving Repr

/-- The fixed-template method/trend summary `message`. -/
def messageOf (trips : List Trip) (bills : List UtilityBill) (now : ℤ) : String :=
  "ML Analysis (" ++ methodOf trips now ++ "): You are in " ++
    clusterOf trips bills now ++ ". " ++
    (if (trendOf trips now).2 = TrendDir.increasing then
      "Emissions are trending up."
     else if (trendOf trips now).2 = TrendDir.decreasing then
      "Emissions are trending down."
     else "Emissions are stable.")

/-- `getAIAnalytics(trips, bills)`: the full analysis pass, parameterised
by the formatting routine `fmt1` (`toFixed(1)`), the square-root routine
`sq` (`Math.sqrt`), the presence of the API key and the observable
outcome of the external recommendation call. -/
def getAIAnalytics (fmt1 : ℚ → String) (sq : ℚ → ℚ) (apiKeyPresent : Bool)
    (outcome : AIOutcome) (trips : List Trip) (bills : List UtilityBill)
    (now : ℤ) : Insight :=
  { forecast := jsToFixed 1 (totalForecastOf trips bills now)
    optimizedForecast := jsToFixed 1 (optimizedWeeklyOf trips bills now)
    risk := riskOf trips bills now
    message := messageOf trips bills now
    recommendations :=
      (recommendationsOf fmt1 apiKeyPresent outcome trips bills now).take 3
    breakdownTravel := jsToFixed 2 (avgDailyTravelOf trips now)
    breakdownEnergy := jsToFixed 2 (avgDailyEnergyOf bills)
    dailyForecast := dailyForecastOf trips bills now
    peakTravelDays := (patternsOf trips).peakDays
    averageDailyDistance :=
      if trips.length > 0 then
        jsToFixed 1 ((trips.map (·.distance)).sum / (trips.length : ℚ))
      else 0
    mostUsedVehicle := mostUsedLabel (patternsOf trips).vehicleFrequency "None"
    carbonTrend := (trendOf trips now).2
    mlConfidence := round ((mlConfidenceOf sq trips bills now : ℚ)) }

/-!  ## The parallel engine: `src/services/mlRecommendationEngine.ts`

Only the pieces a claim touches are embedded: the distance-distribution
mining and the five-rule anomaly detector (`peakHours`, which neither the
detector nor any claim reads, is omitted). -/

namespace MLEngine

/-- `distanceDistribution`: `< 5` km short, `< 20` km medium, else long. -/
structure DistanceDistribution where
  short : ℕ
  medium : ℕ
  long : ℕ
deriving DecidableEq, Repr

/-- One step of the distance bucketing loop. -/
def distStep (acc : DistanceDistribution) (t : Trip) : DistanceDistribution :=
  if t.distance < 5 then { acc with short := acc.short + 1 }
  else if t.distance < 20 then { acc with medium := acc.medium + 1 }
  else { acc with long := acc.long + 1 }

/-- The trip-distance bucket counting of
`MLRecommendationEngine.minePatterns`. -/
def distanceDistributionOf (trips : List Trip) : DistanceDistribution :=
  trips.foldl distStep { short := 0, medium := 0, long := 0 }

/-- The patterns record consumed by the ML engine's anomaly detector. -/
structure Patterns where
  peakDays : List String
  vehicleFrequency : List (String × ℕ)
  distanceDistribution : DistanceDistribution
deriving DecidableEq, Repr

/-- `MLRecommendationEngine.minePatterns(trips)` — the day and vehicle
counting is identical to the geminiService version; the distance buckets
are added. -/
def minePatterns (trips : List Trip) : Patterns :=
  let dayCount := trips.foldl (fun m t => upsertCount m (dayNameOf t.date.day)) []
  let vehicleCount := trips.foldl (fun m t => upsertCount m (vehicleLabel t)) []
  { peakDays := ((sortByCountDesc dayCount).take 2).map (·.1)
    vehicleFrequency := vehicleCount
    distanceDistribution := distanceDistributionOf trips }

/-- The `UserBehaviorProfile` fields the ML detector reads. -/
structure UserBehaviorProfile where
  avgDailyTravel : ℚ
  avgDailyEnergy : ℚ
  trendDirection : TrendDir
deriving DecidableEq, Repr

/-- `MLRecommendationEngine.detectAnomalies(profile, patterns)`: the
five-rule detector — weekend-heavy peak days, the two ratio rules, the
increasing trend, and the long-trip share.  It is total (never raises),
only appending tags. -/
def detectAnomalies (profile : UserBehaviorProfile) (patterns : Patterns) :
    List String :=
  let weekendPart :=
    if patterns.peakDays.contains satName || patterns.peakDays.contains sunName then
      [ weekendHeavyTravelTag ]
    else []
  let ratioPart :=
    let r := profile.avgDailyEnergy / max profile.avgDailyTravel 0.1
    if r > 2 then [ energyDominatesTag ]
    else if r < 0.5 then [ travelDominatesTag ]
    else []
  let trendPart :=
    if profile.trendDirection = TrendDir.increasing then
      [ emissionsIncreasingTag ]
    else []
  let longPart :=
    let totalTrips := patterns.distanceDistribution.short +
      patterns.distanceDistribution.medium + patterns.distanceDistribution.long
    if totalTrips > 0 then
      if (patterns.distanceDistribution.long : ℚ) / (totalTrips : ℚ) > 0.3 then
        [ frequentLongTripsTag ]
      else []
    else []
  weekendPart ++ ratioPart ++ trendPart ++ longPart

end MLEngine

/-!  ## Spec-side definitions

These follow the specification's wording (not the source) and are only
used on the specification side of refinement statements. -/

/-- Spec 4.3: the ordinary-least-squares slope over x = 0..n-1 and
y = the series values, `slope = (nΣxy − ΣxΣy) / (nΣx² − (Σx)²)`. -/
def olsSlope (data : List ℚ) : ℚ :=
  let n : ℚ := data.length
  let sumX := (data.enum.map (fun p => (p.1 : ℚ))).sum
  let sumY := (data.enum.map (fun p => p.2)).sum
  let sumXY := (data.enum.map (fun p => (p.1 : ℚ) * p.2)).sum
  let sumX2 := (data.enum.map (fun p => (p.1 : ℚ) * p.1)).sum
  (n * sumXY - sumX * sumY) / (n * sumX2 - sumX * sumX)

/-- Spec 4.4: the arithmetic mean of a population, 0 when it is empty. -/
def specMean (l : List ℚ) : ℚ :=
  if l = [] then 0 else l.sum / (l.length : ℚ)

/-- Spec 4.6 / 8: `c` is an archetype of the catalog at minimal Euclidean
distance from the point `(x, y)` (squared distances compare identically). -/
def isNearestArchetype (x y : ℚ) (c : Cluster) : Prop :=
  c ∈ clusters ∧ ∀ c2 ∈ clusters, distSq x y c ≤ distSq x y c2

/-!  ## Concrete sample inputs used by counterexamples and witnesses  -/

/-- A single Saturday trip (weekday 6), 25 km, 10 kg CO2e, at epoch 0. -/
def satTrip : Trip :=
  { date := { time := 0, day := 6, key := "2024-01-06" }
    co2 := 10, distance := 25, vehicle := "Car", customVehicleName := none }

/-- A Monday trip with 10 kg CO2e. -/
def monTrip : Trip :=
  { date := { time := 0, day := 1, key := "2024-01-01" }
    co2 := 10, distance := 5, vehicle := "Car", customVehicleName := none }

/-- A Saturday trip with 0 kg CO2e. -/
def satTripZero : Trip :=
  { date := { time := 0, day := 6, key := "2024-01-06" }
    co2 := 0, distance := 2, vehicle := "Bike", customVehicleName := none }

/-- Two bills: the head is the most recently dated one (the record store
supplies bills ordered by date descending). -/
def billNew : UtilityBill := { units := 300, date := 2000 }

def billOld : UtilityBill := { units := 100, date := 1000 }

/-!  ## Helper lemmas  -/

/-- Bounds for `Math.round(Math.min(95, Math.max(5, x)))`: the clamp puts
the value in `[5, 95]` and rounding integer endpoints keeps it there. -/
lemma round_clamp_bounds (x : ℚ) :
    5 ≤ round (min 95 (max 5 x)) ∧ round (min 95 (max 5 x)) ≤ 95 := by
  have h1 : (5 : ℚ) ≤ min 95 (max 5 x) := le_min (by norm_num) (le_max_left 5 x)
  have h2 : min 95 (max 5 x) ≤ 95 := min_le_left _ _
  rw [round_eq]
  constructor
  · exact Int.le_floor.mpr (by push_cast; linarith)
  · have hlt : ⌊min 95 (max 5 x) + 1 / 2⌋ < 96 := Int.floor_lt.mpr (by push_cast; linarith)
    omega

/-!  ## C5 — the confidence score is clamped into [5, 95]  -/

/-- C5: for every input (and every square-root routine standing in for
`Math.sqrt`), the confidence percentage produced by the analytics pass is
at least 5 and at most 95 — the weighted factor sum is clamped by
`Math.round(Math.min(95, Math.max(5, confidenceScore)))`. -/
theorem C5_confidence_clamped (sq : ℚ → ℚ) (trips : List Trip)
    (bills : List UtilityBill) (now : ℤ) :
    5 ≤ mlConfidenceOf sq trips bills now ∧
      mlConfidenceOf sq trips bills now ≤ 95 := by
  unfold mlConfidenceOf
  exact round_clamp_bounds _

/-!  ## C1 — latest-bill-wins energy forecast  -/

/-- C1: when the record store supplies the bills newest-dated first (the
head is maximal-dated, as `cloudService.ts` orders by date descending and
the tracking surface prepends now-dated bills), the daily energy estimate
is the latest-dated bill's kWh units times the fixed 0.45 grid intensity
over 30; it is 0 for an empty list; and the bills behind the head never
influence the energy estimate or the total forecast. -/
theorem C1_latest_bill_wins (bills : List UtilityBill) (b : UtilityBill)
    (hhead : bills.head? = some b)
    (hlatest : ∀ c ∈ bills, c.date ≤ b.date) :
    dailyEnergyOf bills = b.units * 0.45 / 30 ∧
    dailyEnergyOf [] = 0 ∧
    (∀ rest : List UtilityBill, dailyEnergyOf (b :: rest) = dailyEnergyOf bills) ∧
    (∀ (trips : List Trip) (now : ℤ) (rest : List UtilityBill),
      totalForecastOf trips (b :: rest) now = totalForecastOf trips bills now) := by
  cases bills with
  | nil => simp at hhead
  | cons x tl =>
    obtain rfl : x = b := by simpa using hhead
    refine ⟨rfl, ?_, fun rest => rfl, fun trips now rest => rfl⟩
    show (0 : ℚ) * 0.45 / 30 = 0
    norm_num

/-- Witness for C1 at a concrete two-bill list whose head is the
most recently dated bill: 300 kWh at intensity 0.45 over 30 days gives
4.5 kg/day. -/
theorem C1_latest_bill_wins_witness :
    [billNew, billOld].head? = some billNew ∧
    dailyEnergyOf [billNew, billOld] = 4.5 := by
  have hd : ∀ c ∈ [billNew, billOld], c.date ≤ billNew.date := by
    intro c hc
    fin_cases hc <;> norm_num [billNew, billOld]
  refine ⟨rfl, ?_⟩
  rw [(C1_latest_bill_wins [billNew, billOld] billNew rfl hd).1]
  norm_num [billNew]

/-!  ## C10 — the symmetric 30-day trailing window  -/

/-- C10: the window filter compares the absolute time difference, so a
trip is kept exactly when it is at most 30 whole days away from "now" in
either direction — a future-dated trip is treated exactly like the
mirror-image past trip, and anything more than 30 days away is
excluded. -/
theorem C10_window_filter (now time d : ℤ) (trips : List Trip) (t : Trip) :
    (diffDays now time ≤ 30 ↔ |now - time| ≤ 30 * (1000 * 60 * 60 * 24)) ∧
    diffDays now (now + d) = diffDays now (now - d) ∧
    (t ∈ last30DaysOf trips now ↔
      t ∈ trips ∧ diffDays now t.date.time ≤ 30) := by
  refine ⟨?_, ?_, ?_⟩
  · unfold diffDays
    rw [Int.ceil_le, div_le_iff₀ (by norm_num : (0 : ℚ) < 1000 * 60 * 60 * 24)]
    constructor
    · intro h; exact_mod_cast h
    · intro h; exact_mod_cast h
  · unfold diffDays
    have habs : |(now : ℚ) - ((now + d : ℤ) : ℚ)| = |(now : ℚ) - ((now - d : ℤ) : ℚ)| := by
      push_cast
      rw [show (now : ℚ) - (now + d) = -d by ring,
        show (now : ℚ) - (now - d) = d by ring, abs_neg]
    rw [habs]
  · unfold last30DaysOf
    simp [List.mem_filter]

/-!  ## C8 — always exactly three recommendation strings  -/

/-- The `recommendations` local always carries exactly three strings,
whatever the key presence and the external outcome. -/
lemma recommendationsOf_length (fmt1 : ℚ → String) (k : Bool)
    (o : AIOutcome) (trips : List Trip) (bills : List UtilityBill) (now : ℤ) :
    (recommendationsOf fmt1 k o trips bills now).length = 3 := by
  unfold recommendationsOf
  cases k with
  | false => rfl
  | true =>
    cases o with
    | threw => rfl
    | parsed r =>
      cases r with
      | none => rfl
      | some recs =>
        by_cases h : recs.length = 3
        · simp [h]
        · simp [h]
          rfl

/-- C8: for every input and every outcome of the external recommendation
generator (success, failure, malformed result, or absence of the API
key), the assembled Insight contains exactly 3 recommendation strings,
and the local fallback template always fills exactly 3 strings from the
already-computed values. -/
theorem C8_recommendations_count (fmt1 : ℚ → String) (sq : ℚ → ℚ)
    (apiKeyPresent : Bool) (outcome : AIOutcome) (trips : List Trip)
    (bills : List UtilityBill) (now : ℤ) :
    (getAIAnalytics fmt1 sq apiKeyPresent outcome trips bills now).recommendations.length = 3 ∧
    (∀ (cluster : String) (totalDaily : ℚ) (peakDays : List String)
      (tripsCount : ℕ) (vehicleName : String) (anomalies : List String)
      (trendDir : TrendDir) (e t2 : ℚ),
      (fallbackRecommendations fmt1 cluster totalDaily peakDays tripsCount
        vehicleName anomalies trendDir e t2).length = 3) := by
  constructor
  · show ((recommendationsOf fmt1 apiKeyPresent outcome trips bills now).take 3).length = 3
    rw [List.length_take, recommendationsOf_length]
    norm_num
  · intro cluster totalDaily peakDays tripsCount vehicleName anomalies trendDir e t2
    rfl

/-!  ## C4 — the forecast composer  -/

/-- The method-selection test, as a proposition. -/
lemma seasonalActiveOf_iff (trips : List Trip) (now : ℤ) :
    seasonalActiveOf trips now = true ↔
      ((seasonalOf trips now).hasPattern = true ∧
        7 < (timeSeriesOf trips now).length) := by
  unfold seasonalActiveOf
  rw [Bool.and_eq_true, decide_eq_true_iff]

/-- C4: the composer selects Seasonal Decomposition
(`weekdayAvg*5 + weekendAvg*2`) exactly when the seasonal pattern holds
and the daily series has more than 7 entries, and otherwise projects
`(smooth(series) + slope*7) * 7`; the total forecast adds
`dailyEnergy*7`, the optimized target is `total*0.8`, and the risk tier
is Low below 15, Moderate below 30, else High. -/
theorem C4_forecast_composer (trips : List Trip) (bills : List UtilityBill)
    (now : ℤ) :
    travelForecastOf trips now =
      (if (seasonalOf trips now).hasPattern = true ∧
          7 < (timeSeriesOf trips now).length
       then (seasonalOf trips now).weekdayAvg * 5 +
         (seasonalOf trips now).weekendAvg * 2
       else (calculateEWMA (timeSeriesOf trips now) 0.3 +
         (detectTrend (timeSeriesOf trips now)).1 * 7) * 7) ∧
    (methodOf trips now = seasonalMethodName ↔
      ((seasonalOf trips now).hasPattern = true ∧
        7 < (timeSeriesOf trips now).length)) ∧
    totalForecastOf trips bills now =
      travelForecastOf trips now + dailyEnergyOf bills * 7 ∧
    optimizedWeeklyOf trips bills now = totalForecastOf trips bills now * 0.8 ∧
    riskOf trips bills now =
      (if totalForecastOf trips bills now < 15 then lowRisk
       else if totalForecastOf trips bills now < 30 then moderateRisk
       else highRisk) := by
  refine ⟨?_, ?_, rfl, rfl, rfl⟩
  · unfold travelForecastOf
    by_cases h : seasonalActiveOf trips now = true
    · rw [if_pos h, if_pos ((seasonalActiveOf_iff trips now).mp h)]
    · rw [if_neg h, if_neg (fun hh => h ((seasonalActiveOf_iff trips now).mpr hh))]
      rfl
  · unfold methodOf
    by_cases h : seasonalActiveOf trips now = true
    · rw [if_pos h]
      constructor
      · intro _
        exact (seasonalActiveOf_iff trips now).mp h
      · intro _
        rfl
    · rw [if_neg h]
      constructor
      · intro he
        exact absurd he (by decide)
      · intro hh
        exact absurd ((seasonalActiveOf_iff trips now).mpr hh) h

/-!  ## C7 — the trend estimator  -/

/-- Unrolling the `detectTrend` summing loop into the four sums over the
enumerated series. -/
lemma trendSums_foldl (l : List (ℕ × ℚ)) (a b c d : ℚ) :
    l.foldl trendStep (a, b, c, d) =
      (a + (l.map (fun p => (p.1 : ℚ))).sum,
       b + (l.map (fun p => p.2)).sum,
       c + (l.map (fun p => (p.1 : ℚ) * p.2)).sum,
       d + (l.map (fun p => (p.1 : ℚ) * p.1)).sum) := by
  induction l generalizing a b c d with
  | nil => simp
  | cons x xs ih =>
    simp only [List.foldl_cons, List.map_cons, List.sum_cons, trendStep, ih,
      Prod.mk.injEq]
    refine ⟨by ring, by ring, by ring, by ring⟩

/-- The loop accumulator equals the four specification sums. -/
lemma trendSums_eq (data : List ℚ) :
    trendSums data =
      ((data.enum.map (fun p => (p.1 : ℚ))).sum,
       (data.enum.map (fun p => p.2)).sum,
       (data.enum.map (fun p => (p.1 : ℚ) * p.2)).sum,
       (data.enum.map (fun p => (p.1 : ℚ) * p.1)).sum) := by
  unfold trendSums
  rw [trendSums_foldl]
  norm_num

/-- C7: series shorter than 3 points give slope 0 and "stable"; otherwise
the slope is the ordinary-least-squares slope
`(nΣxy − ΣxΣy) / (nΣx² − (Σx)²)` over x = 0..n−1, classified increasing
above 0.1, decreasing below −0.1, else stable. -/
theorem C7_trend_estimator (data : List ℚ) :
    detectTrend data =
      if data.length < 3 then (0, TrendDir.stable)
      else (olsSlope data,
        if olsSlope data > 0.1 then TrendDir.increasing
        else if olsSlope data < -0.1 then TrendDir.decreasing
        else TrendDir.stable) := by
  unfold detectTrend olsSlope
  rw [trendSums_eq]

/-!  ## C6 — the seasonal analyzer  -/

/-- The source's guarded average equals the spec's arithmetic mean with 0
for an empty population. -/
lemma guarded_avg_eq_specMean (l : List ℚ) :
    (if l.length > 0 then l.sum / (l.length : ℚ) else 0) = specMean l := by
  cases l with
  | nil => simp [specMean]
  | cons x xs => simp [specMean]

/-- The weekday population mean of the analyzer is the spec mean. -/
lemma weekdayAvg_eq_specMean (ts : List Trip) :
    (analyzeSeasonalPattern ts).weekdayAvg =
      specMean ((ts.filter (fun t => !isWeekendDay t.date.day)).map (·.co2)) := by
  unfold analyzeSeasonalPattern
  exact guarded_avg_eq_specMean _

/-- The weekend population mean of the analyzer is the spec mean. -/
lemma weekendAvg_eq_specMean (ts : List Trip) :
    (analyzeSeasonalPattern ts).weekendAvg =
      specMean ((ts.filter (fun t => isWeekendDay t.date.day)).map (·.co2)) := by
  unfold analyzeSeasonalPattern
  exact guarded_avg_eq_specMean _

/-- The analyzer reports a pattern exactly when the normalized contrast
exceeds 0.2. -/
lemma hasPattern_iff (ts : List Trip) :
    (analyzeSeasonalPattern ts).hasPattern = true ↔
      |(analyzeSeasonalPattern ts).weekdayAvg -
          (analyzeSeasonalPattern ts).weekendAvg| /
        max (analyzeSeasonalPattern ts).weekdayAvg 1 > 0.2 := by
  unfold analyzeSeasonalPattern
  exact decide_eq_true_iff

/-- C6: the analyzer splits individual trip emissions into weekday
(Mon–Fri) and weekend (Sat/Sun) populations, takes arithmetic means with
0 for an empty population, reports
`hasPattern ↔ |weekdayAvg − weekendAvg| / max(weekdayAvg, 1) > 0.2`, and
in particular reports a pattern whenever the weekday average is 10 and
the weekend average is 0. -/
theorem C6_seasonal_analyzer (trips : List Trip)
    (h10 : (analyzeSeasonalPattern trips).weekdayAvg = 10)
    (h0 : (analyzeSeasonalPattern trips).weekendAvg = 0) :
    (∀ ts : List Trip,
      (analyzeSeasonalPattern ts).weekdayAvg =
        specMean ((ts.filter (fun t => !isWeekendDay t.date.day)).map (·.co2)) ∧
      (analyzeSeasonalPattern ts).weekendAvg =
        specMean ((ts.filter (fun t => isWeekendDay t.date.day)).map (·.co2)) ∧
      ((analyzeSeasonalPattern ts).hasPattern = true ↔
        |(analyzeSeasonalPattern ts).weekdayAvg -
            (analyzeSeasonalPattern ts).weekendAvg| /
          max (analyzeSeasonalPattern ts).weekdayAvg 1 > 0.2)) ∧
    (analyzeSeasonalPattern trips).hasPattern = true := by
  constructor
  · intro ts
    exact ⟨weekdayAvg_eq_specMean ts, weekendAvg_eq_specMean ts, hasPattern_iff ts⟩
  · rw [hasPattern_iff, h10, h0]
    norm_num

/-- Witness for C6: one Monday trip of 10 kg and one zero-emission
Saturday trip give weekday average 10, weekend average 0, and a detected
pattern. -/
theorem C6_seasonal_analyzer_witness :
    (analyzeSeasonalPattern [ monTrip, satTripZero ]).weekdayAvg = 10 ∧
    (analyzeSeasonalPattern [ monTrip, satTripZero ]).weekendAvg = 0 ∧
    (analyzeSeasonalPattern [ monTrip, satTripZero ]).hasPattern = true := by
  have h10 : (analyzeSeasonalPattern [ monTrip, satTripZero ]).weekdayAvg = 10 := by
    simp +decide [analyzeSeasonalPattern, monTrip, satTripZero, isWeekendDay]
  have h0 : (analyzeSeasonalPattern [ monTrip, satTripZero ]).weekendAvg = 0 := by
    simp +decide [analyzeSeasonalPattern, monTrip, satTripZero, isWeekendDay]
  exact ⟨h10, h0, (C6_seasonal_analyzer [ monTrip, satTripZero ] h10 h0).2⟩

/-!  ## C9 — the EWMA stays inside the observed range  -/

/-- The EWMA folding step with alpha 0.3 keeps the state inside any
interval containing the state and all remaining values. -/
lemma ewma_fold_bounded (lo hi : ℚ) :
    ∀ (l : List ℚ) (cur : ℚ), (∀ x ∈ l, lo ≤ x ∧ x ≤ hi) →
      lo ≤ cur → cur ≤ hi →
      lo ≤ l.foldl (fun ewma v => 0.3 * v + (1 - 0.3) * ewma) cur ∧
        l.foldl (fun ewma v => 0.3 * v + (1 - 0.3) * ewma) cur ≤ hi := by
  intro l
  induction l with
  | nil =>
    intro cur _ h1 h2
    exact ⟨h1, h2⟩
  | cons x xs ih =>
    intro cur hmem h1 h2
    have hx := hmem x (List.mem_cons_self x xs)
    refine ih _ (fun y hy => hmem y (List.mem_cons_of_mem x hy)) ?_ ?_
    · nlinarith [hx.1, hx.2]
    · nlinarith [hx.1, hx.2]

/-- C9: for every non-empty daily series the EWMA smoother with the fixed
alpha 0.3 returns a value between the series minimum and maximum,
inclusive. -/
theorem C9_ewma_in_range (data : List ℚ) (lo hi : ℚ)
    (hlo : data.min? = some lo) (hhi : data.max? = some hi) :
    lo ≤ calculateEWMA data 0.3 ∧ calculateEWMA data 0.3 ≤ hi := by
  haveI anti : Std.Antisymm ((· : ℚ) ≤ ·) :=
    ⟨fun {a b} h1 h2 => le_antisymm h1 h2⟩
  have hmin := (List.min?_eq_some_iff (fun a : ℚ => le_refl a)
      (fun a b => min_choice a b) (fun a b c => le_min_iff)).mp hlo
  have hmax := (List.max?_eq_some_iff (fun a : ℚ => le_refl a)
      (fun a b => max_choice a b) (fun a b c => max_le_iff)).mp hhi
  cases data with
  | nil => simp at hlo
  | cons x xs =>
    have hbound : ∀ y ∈ x :: xs, lo ≤ y ∧ y ≤ hi :=
      fun y hy => ⟨hmin.2 y hy, hmax.2 y hy⟩
    have hx := hbound x (List.mem_cons_self x xs)
    exact ewma_fold_bounded lo hi xs x
      (fun y hy => hbound y (List.mem_cons_of_mem x hy)) hx.1 hx.2

/-- Witness for C9 at the series [1, 2]: the smoothed value 1.3 lies in
[1, 2]. -/
theorem C9_ewma_in_range_witness :
    [ (1 : ℚ), 2 ].min? = some 1 ∧ [ (1 : ℚ), 2 ].max? = some 2 ∧
    1 ≤ calculateEWMA [ 1, 2 ] 0.3 ∧ calculateEWMA [ 1, 2 ] 0.3 ≤ 2 := by
  have hmin : [ (1 : ℚ), 2 ].min? = some 1 := by
    rw [List.min?_cons']
    norm_num [min_def]
  have hmax : [ (1 : ℚ), 2 ].max? = some 2 := by
    rw [List.max?_cons']
    norm_num [max_def]
  have h := C9_ewma_in_range [ 1, 2 ] 1 2 hmin hmax
  exact ⟨hmin, hmax, h.1, h.2⟩

/-!  ## C2 — the empty-input analysis pass  -/

lemma timeSeries_nil (now : ℤ) : timeSeriesOf [] now = [] := rfl

lemma trend_nil (now : ℤ) : trendOf [] now = (0, TrendDir.stable) := rfl

/-- With an empty series the `length > 7` conjunct fails, so the seasonal
method is inactive. -/
lemma seasonalActive_nil (now : ℤ) : seasonalActiveOf [] now = false := by
  simp [seasonalActiveOf, timeSeriesOf, dailyEmissionsOf, last30DaysOf]

lemma travelForecast_nil (now : ℤ) : travelForecastOf [] now = 0 := by
  have hewma : ewmaTravelOf [] now = 0 := rfl
  simp [travelForecastOf, seasonalActive_nil, hewma, trend_nil]

lemma dailyEnergy_nil : dailyEnergyOf [] = 0 := by
  norm_num [dailyEnergyOf, latestBillUnitsOf]

lemma totalForecast_nil (now : ℤ) : totalForecastOf [] [] now = 0 := by
  simp [totalForecastOf, energyForecastOf, dailyEnergy_nil, travelForecast_nil]

lemma risk_nil (now : ℤ) : riskOf [] [] now = lowRisk := by
  rw [riskOf, totalForecast_nil]
  norm_num

lemma avgDailyTravel_nil (now : ℤ) : avgDailyTravelOf [] now = 0 := by
  simp [avgDailyTravelOf, travelForecast_nil]

/-- The empty profile sits at the origin and is assigned the first
catalog entry, Eco Elite. -/
lemma cluster_nil (now : ℤ) : clusterOf [] [] now = ecoEliteName := by
  rw [clusterOf, avgDailyTravel_nil,
    show avgDailyEnergyOf [] = 0 from dailyEnergy_nil]
  norm_num [assignCluster, clusters, distSq]

/-- Eco Elite (1.0, 1.5) is the archetype nearest the origin. -/
lemma nearest_origin :
    isNearestArchetype 0 0
      { name := ecoEliteName, avgTravel := 1.0, avgEnergy := 1.5 } := by
  constructor
  · simp [clusters]
  · intro c hc
    fin_cases hc <;> norm_num [distSq]

/-- With no trips and no bills every confidence factor is 0 except
stability, which contributes its full 15 because the slope is 0. -/
lemma mlConfidence_nil (sq : ℚ → ℚ) (now : ℤ) :
    mlConfidenceOf sq [] [] now = 15 := by
  have hscore : confidenceScoreOf sq [] [] now = 15 := by
    norm_num [confidenceScoreOf, coverageScoreOf, volumeScoreOf, stabilityScoreOf,
      variabilityScoreOf, seasonalityScoreOf, seasonalStrengthOf, recencyScoreOf,
      billsScoreOf, uniqueDaysOf, totalTripsOf, meanOf, varianceOf,
      daysSinceLastTripOf, latestTripTimestampOf, last30DaysOf, timeSeriesOf,
      dailyEmissionsOf, trendOf, detectTrend, min_def, max_def]
  rw [mlConfidenceOf, hscore,
    show min (95 : ℚ) (max 5 15) = 15 by norm_num, round_eq]
  norm_num

/-- C2 (amended): for the empty input the pass returns total forecast 0,
risk Low, the archetype nearest the origin (Eco Elite), and confidence
**15** — above the floor 5, because the stability factor contributes its
full 15 points when the slope is 0. -/
theorem C2_zero_input_amended (sq : ℚ → ℚ) (now : ℤ) :
    totalForecastOf [] [] now = 0 ∧
    riskOf [] [] now = lowRisk ∧
    clusterOf [] [] now = ecoEliteName ∧
    isNearestArchetype 0 0
      { name := ecoEliteName, avgTravel := 1.0, avgEnergy := 1.5 } ∧
    mlConfidenceOf sq [] [] now = 15 :=
  ⟨totalForecast_nil now, risk_nil now, cluster_nil now, nearest_origin,
    mlConfidence_nil sq now⟩

/-- C2 (counterexample to the claim as stated): at 0 trips and 0 bills
the confidence is exactly 15, which is not at the floor 5 and not even
within 5 points of it. -/
theorem C2_zero_input_counterexample :
    totalForecastOf [] [] 0 = 0 ∧
    riskOf [] [] 0 = lowRisk ∧
    mlConfidenceOf (fun q => q) [] [] 0 = 15 ∧
    ¬(mlConfidenceOf (fun q => q) [] [] 0 ≤ 10) := by
  refine ⟨totalForecast_nil 0, risk_nil 0, mlConfidence_nil _ 0, ?_⟩
  rw [mlConfidence_nil]
  norm_num

/-!  ## C3 — which detector has which anomaly rules  -/

lemma diffDays_self (now : ℤ) : diffDays now now = 0 := by
  simp [diffDays]

lemma last30_satTrip : last30DaysOf [ satTrip ] 0 = [ satTrip ] := by
  simp [last30DaysOf, satTrip, diffDays_self]

lemma series_satTrip : timeSeriesOf [ satTrip ] 0 = [ 10 ] := by
  rw [timeSeriesOf, dailyEmissionsOf, last30_satTrip]
  simp [upsertAdd, satTrip]

lemma trend_satTrip : trendOf [ satTrip ] 0 = (0, TrendDir.stable) := by
  rw [trendOf, series_satTrip]
  rfl

/-- The single 10 kg Saturday trip forecasts 10 kg/day of travel. -/
lemma travel_satTrip : avgDailyTravelOf [ satTrip ] 0 = 10 := by
  have hsa : seasonalActiveOf [ satTrip ] 0 = false := by
    simp [seasonalActiveOf, series_satTrip]
  have hewma : ewmaTravelOf [ satTrip ] 0 = 10 := by
    rw [ewmaTravelOf, series_satTrip]
    rfl
  norm_num [avgDailyTravelOf, travelForecastOf, hsa, hewma, trend_satTrip]

/-- The live pass flags only `travel_dominates` on the all-Saturday
input. -/
lemma anomalies_satTrip : anomaliesOf [ satTrip ] [] 0 = [ travelDominatesTag ] := by
  rw [anomaliesOf, travel_satTrip, trend_satTrip,
    show avgDailyEnergyOf [] = 0 from dailyEnergy_nil]
  have hmax : max (10 : ℚ) 0.1 = 10 := by norm_num [max_def]
  norm_num +decide [detectAnomalies, hmax]

lemma peakDays_satTrip : (patternsOf [ satTrip ]).peakDays = [ satName ] := by
  simp +decide [patternsOf, minePatterns, upsertCount, sortByCountDesc,
    insertByCountDesc, dayNameOf, dayNames, satTrip]

/-- C3 (counterexample to the claim as stated): in the live analytics
pass (`getAIAnalytics` of geminiService.ts) a lone long (25 km) Saturday
trip mines Sat as a peak day, yet the pass's anomaly list contains
neither `weekend_heavy_travel` nor `frequent_long_trips` — its detector
only has the ratio and trend rules. -/
theorem C3_live_pass_counterexample :
    satName ∈ (patternsOf [ satTrip ]).peakDays ∧
    weekendHeavyTravelTag ∉ anomaliesOf [ satTrip ] [] 0 ∧
    frequentLongTripsTag ∉ anomaliesOf [ satTrip ] [] 0 ∧
    anomaliesOf [ satTrip ] [] 0 = [ travelDominatesTag ] := by
  refine ⟨?_, ?_, ?_, anomalies_satTrip⟩
  · rw [peakDays_satTrip]
    exact List.mem_singleton.mpr rfl
  · rw [anomalies_satTrip]
    simp +decide [weekendHeavyTravelTag, travelDominatesTag]
  · rw [anomalies_satTrip]
    simp +decide [frequentLongTripsTag, travelDominatesTag]

/-- Membership in a conditional singleton. -/
lemma mem_if_singleton {α : Type} (a b : α) (c : Prop) [Decidable c] :
    (a ∈ if c then [ b ] else []) ↔ (c ∧ a = b) := by
  split_ifs with h <;> simp [h]

/-- Membership in a conditional if/else-if pair of singletons. -/
lemma mem_if_pair {α : Type} (a b1 b2 : α) (c1 c2 : Prop)
    [Decidable c1] [Decidable c2] :
    (a ∈ if c1 then [ b1 ] else if c2 then [ b2 ] else []) ↔
      ((c1 ∧ a = b1) ∨ (¬ c1 ∧ c2 ∧ a = b2)) := by
  split_ifs with h1 h2
  · simp [h1]
  · simp [h1, h2]
  · simp [h1, h2]

/-- The long-bucket count is the number of trips of at least 20 km. -/
lemma distDist_long (ts : List Trip) :
    ∀ acc : MLEngine.DistanceDistribution,
      (ts.foldl MLEngine.distStep acc).long =
        acc.long + (ts.filter (fun t => decide (20 ≤ t.distance))).length := by
  induction ts with
  | nil =>
    intro acc
    simp
  | cons t ts ih =>
    intro acc
    by_cases h5 : t.distance < 5
    · have h20 : ¬ (20 ≤ t.distance) := not_le.mpr (lt_trans h5 (by norm_num))
      simp only [List.foldl_cons, MLEngine.distStep, if_pos h5]
      simp [h20, ih]
    · by_cases h20 : t.distance < 20
      · have h20' : ¬ (20 ≤ t.distance) := not_le.mpr h20
        simp only [List.foldl_cons, MLEngine.distStep, if_neg h5, if_pos h20]
        simp [h20', ih]
      · have h20' : 20 ≤ t.distance := not_lt.mp h20
        simp only [List.foldl_cons, MLEngine.distStep, if_neg h5, if_neg h20]
        simp [h20', ih]
        omega

/-- The three distance buckets partition all trips. -/
lemma distDist_total (ts : List Trip) :
    ∀ acc : MLEngine.DistanceDistribution,
      (ts.foldl MLEngine.distStep acc).short +
          (ts.foldl MLEngine.distStep acc).medium +
          (ts.foldl MLEngine.distStep acc).long =
        acc.short + acc.medium + acc.long + ts.length := by
  induction ts with
  | nil =>
    intro acc
    simp
  | cons t ts ih =>
    intro acc
    simp only [List.foldl_cons, MLEngine.distStep]
    split_ifs <;> rw [ih] <;> simp <;> omega

/-- C3 (amended): the *ML recommendation engine's* detector
(mlRecommendationEngine.ts) appends `weekend_heavy_travel` exactly when
the mined peak days meet {Sat, Sun} and `frequent_long_trips` exactly
when long trips (≥ 20 km) are more than 30% of all trips, alongside the
ratio and trend rules, with multiple flags co-occurring freely; the live
analytics pass's own detector (geminiService.ts) only ever emits the two
ratio flags and the trend flag.  Both detectors are total (never raise),
only appending tags. -/
theorem C3_anomaly_rules_amended
    (profile : MLEngine.UserBehaviorProfile) (patterns : MLEngine.Patterns)
    (avgTravel avgEnergy : ℚ) (dir : TrendDir) :
    (weekendHeavyTravelTag ∈ MLEngine.detectAnomalies profile patterns ↔
      (satName ∈ patterns.peakDays ∨ sunName ∈ patterns.peakDays)) ∧
    (frequentLongTripsTag ∈ MLEngine.detectAnomalies profile patterns ↔
      (0 < patterns.distanceDistribution.short +
          patterns.distanceDistribution.medium +
          patterns.distanceDistribution.long ∧
        (patterns.distanceDistribution.long : ℚ) /
          ((patterns.distanceDistribution.short +
            patterns.distanceDistribution.medium +
            patterns.distanceDistribution.long : ℕ) : ℚ) > 0.3)) ∧
    (energyDominatesTag ∈ MLEngine.detectAnomalies profile patterns ↔
      profile.avgDailyEnergy / max profile.avgDailyTravel 0.1 > 2) ∧
    (emissionsIncreasingTag ∈ MLEngine.detectAnomalies profile patterns ↔
      profile.trendDirection = TrendDir.increasing) ∧
    (∀ ts : List Trip,
      (MLEngine.distanceDistributionOf ts).long =
        (ts.filter (fun t => decide (20 ≤ t.distance))).length ∧
      (MLEngine.distanceDistributionOf ts).short +
          (MLEngine.distanceDistributionOf ts).medium +
          (MLEngine.distanceDistributionOf ts).long = ts.length) ∧
    (∀ a ∈ detectAnomalies avgTravel avgEnergy dir,
      a = energyDominatesTag ∨ a = travelDominatesTag ∨
        a = emissionsIncreasingTag) := by
  refine ⟨?_, ?_, ?_, ?_, fun ts => ⟨?_, ?_⟩, ?_⟩
  · unfold MLEngine.detectAnomalies
    simp only [List.mem_append, mem_if_singleton, mem_if_pair]
    simp +decide [List.contains, weekendHeavyTravelTag, frequentLongTripsTag,
      energyDominatesTag, travelDominatesTag, emissionsIncreasingTag]
  · unfold MLEngine.detectAnomalies
    simp only [List.mem_append, mem_if_singleton, mem_if_pair]
    simp +decide [List.contains, weekendHeavyTravelTag, frequentLongTripsTag,
      energyDominatesTag, travelDominatesTag, emissionsIncreasingTag]
  · unfold MLEngine.detectAnomalies
    simp only [List.mem_append, mem_if_singleton, mem_if_pair]
    simp +decide [List.contains, weekendHeavyTravelTag, frequentLongTripsTag,
      energyDominatesTag, travelDominatesTag, emissionsIncreasingTag]
  · unfold MLEngine.detectAnomalies
    simp only [List.mem_append, mem_if_singleton, mem_if_pair]
    simp +decide [List.contains, weekendHeavyTravelTag, frequentLongTripsTag,
      energyDominatesTag, travelDominatesTag, emissionsIncreasingTag]
  · rw [MLEngine.distanceDistributionOf, distDist_long]
    simp
  · rw [MLEngine.distanceDistributionOf, distDist_total]
    simp
  · intro a ha
    unfold detectAnomalies at ha
    simp only [List.mem_append, mem_if_singleton, mem_if_pair] at ha
    rcases ha with (⟨_, rfl⟩ | ⟨_, _, rfl⟩) | ⟨_, rfl⟩
    · left
      rfl
    · right
      left
      rfl
    · right
      right
      rfl

/-- The concrete ML profile used by the witness: 2 kg/day travel,
10 kg/day energy, increasing trend. -/
def mlProfileW : MLEngine.UserBehaviorProfile :=
  { avgDailyTravel := 2, avgDailyEnergy := 10,
    trendDirection := TrendDir.increasing }

/-- The concrete ML patterns used by the witness: Sat peak day, one long
trip out of one. -/
def mlPatternsW : MLEngine.Patterns :=
  { peakDays := [ satName ], vehicleFrequency := []
    distanceDistribution := { short := 0, medium := 0, long := 1 } }

/-- Witness for C3 (amended): on the concrete profile/patterns all four
ML flags co-occur in one detector run, and the live detector's output on
(travel 10, energy 0, stable) is one of its three possible tags. -/
theorem C3_anomaly_rules_amended_witness :
    weekendHeavyTravelTag ∈ MLEngine.detectAnomalies mlProfileW mlPatternsW ∧
    frequentLongTripsTag ∈ MLEngine.detectAnomalies mlProfileW mlPatternsW ∧
    energyDominatesTag ∈ MLEngine.detectAnomalies mlProfileW mlPatternsW ∧
    emissionsIncreasingTag ∈ MLEngine.detectAnomalies mlProfileW mlPatternsW ∧
    (travelDominatesTag = energyDominatesTag ∨
      travelDominatesTag = travelDominatesTag ∨
      travelDominatesTag = emissionsIncreasingTag) := by
  have h := C3_anomaly_rules_amended mlProfileW mlPatternsW 10 0 TrendDir.stable
  have hmem : travelDominatesTag ∈ detectAnomalies 10 0 TrendDir.stable := by
    have hmax : max (10 : ℚ) 0.1 = 10 := by norm_num [max_def]
    norm_num +decide [detectAnomalies, hmax]
  refine ⟨h.1.mpr ?_, h.2.1.mpr ?_, h.2.2.1.mpr ?_, h.2.2.2.1.mpr ?_,
    h.2.2.2.2.2 travelDominatesTag hmem⟩
  · left
    simp [mlPatternsW]
  · refine ⟨by norm_num [mlPatternsW], ?_⟩
    norm_num [mlPatternsW]
  · have hmax : max (2 : ℚ) 0.1 = 2 := by norm_num [max_def]
    norm_num [mlProfileW, hmax]
  · rfl
